import Mathlib

/-!
Verification development for the `n2o4` C shim layer.

The repository consists of five C files:
  * `src/cfs-shims.c` / `src/cfs-shims.h` — 26 forwarding shims generated by
    the macro templates `shim1`/`shim2`, and their prototypes;
  * `src/cfs-sys/cfs-shims.c` / `src/cfs-sys/cfs-shims.h` — the same 26 shims,
    generated by pre-defining `shim1`/`shim2` (which also take parameter
    names) and including the instantiation list in `cfs-shims.h`, plus a
    directly written pointer-constant global (a bindgen workaround);
  * `src/cfs-sys/cfs-api.h` — constant re-exports generated by the macros
    `S` (status constants) and `X` (typed constants), plus two directly
    written `uint8` globals for the fields of `CFE_SB_DEFAULT_QOS`.

Two embeddings are developed side by side:
  * a typed shallow embedding: the wrapped middleware inline functions are
    the fields of a `Middleware` record (their types transcribed from the
    shim instantiations), and each C function `SHIM_F` becomes a Lean
    function of the same shape;
  * a syntactic model: each macro is a Lean function producing a record
    describing the C declaration it expands to (`CFunDef` for functions,
    `CGlobalDecl` for globals), and each instantiation list in the source
    is transcribed line by line; a small semantics (`run`, `runTraced`,
    `runState`) interprets a `CFunDef` body `return fname(args...);`
    against an arbitrary middleware oracle.
-/

/-! ## Typed carriers for the C types appearing in the shim signatures

The middleware types are opaque to this repository: no shim inspects their
representation.  They are embedded as single-field structures over `Nat`/`Int`
(no arithmetic is ever performed on them here). -/

/-- C `CFE_ResourceId_t` (opaque wrapper type of the cFE resource-ID API). -/
structure CFE_ResourceId_t where
  val : Nat
  deriving DecidableEq, Repr

/-- C `CFE_SB_MsgId_t` (opaque software-bus message-ID type). -/
structure CFE_SB_MsgId_t where
  val : Nat
  deriving DecidableEq, Repr

/-- C `OS_time_t` (opaque OSAL time value). -/
structure OS_time_t where
  ticks : Int
  deriving DecidableEq, Repr

/-- C `osal_id_t` (opaque OSAL object ID). -/
structure osal_id_t where
  val : Nat
  deriving DecidableEq, Repr

/-- C `CFE_SB_MsgId_Atom_t` (an unsigned integer type). -/
abbrev CFE_SB_MsgId_Atom_t := Nat

/-- C `unsigned long`. -/
abbrev c_ulong := Nat

/-- C `int64`. -/
abbrev c_int64 := Int

/-- C `uint32`. -/
abbrev c_uint32 := Nat

/-! ## The wrapped middleware

The 26 inline functions wrapped by `src/cfs-shims.c` lines 29–57 live in the
external cFE/OSAL middleware and are out of scope; they are modelled as the
fields of a record, at the types at which the shims invoke them. -/

/-- The external middleware's 26 wrapped inline functions, as a record of
pure functions.  Field types are transcribed from the shim instantiation
list in `src/cfs-shims.c` (which is also the type each function is invoked
at inside the corresponding shim body). -/
structure Middleware where
  CFE_ResourceId_ToInteger : CFE_ResourceId_t → c_ulong
  CFE_ResourceId_FromInteger : c_ulong → CFE_ResourceId_t
  CFE_ResourceId_Equal : CFE_ResourceId_t → CFE_ResourceId_t → Bool
  CFE_ResourceId_IsDefined : CFE_ResourceId_t → Bool
  CFE_SB_MsgId_Equal : CFE_SB_MsgId_t → CFE_SB_MsgId_t → Bool
  CFE_SB_MsgIdToValue : CFE_SB_MsgId_t → CFE_SB_MsgId_Atom_t
  CFE_SB_ValueToMsgId : CFE_SB_MsgId_Atom_t → CFE_SB_MsgId_t
  OS_TimeGetTotalSeconds : OS_time_t → c_int64
  OS_TimeGetTotalMilliseconds : OS_time_t → c_int64
  OS_TimeGetTotalMicroseconds : OS_time_t → c_int64
  OS_TimeGetTotalNanoseconds : OS_time_t → c_int64
  OS_TimeGetFractionalPart : OS_time_t → c_int64
  OS_TimeGetSubsecondsPart : OS_time_t → c_uint32
  OS_TimeGetMillisecondsPart : OS_time_t → c_uint32
  OS_TimeGetMicrosecondsPart : OS_time_t → c_uint32
  OS_TimeGetNanosecondsPart : OS_time_t → c_uint32
  OS_TimeAssembleFromNanoseconds : c_int64 → c_uint32 → OS_time_t
  OS_TimeAssembleFromMicroseconds : c_int64 → c_uint32 → OS_time_t
  OS_TimeAssembleFromMilliseconds : c_int64 → c_uint32 → OS_time_t
  OS_TimeAssembleFromSubseconds : c_int64 → c_uint32 → OS_time_t
  OS_TimeAdd : OS_time_t → OS_time_t → OS_time_t
  OS_TimeSubtract : OS_time_t → OS_time_t → OS_time_t
  OS_ObjectIdToInteger : osal_id_t → c_ulong
  OS_ObjectIdFromInteger : c_ulong → osal_id_t
  OS_ObjectIdEqual : osal_id_t → osal_id_t → Bool
  OS_ObjectIdDefined : osal_id_t → Bool

/-! ## The shim macro templates, typed (src/cfs-shims.c lines 16–26)

`shim1(rettype, fname, arg1type)` expands to
`rettype SHIM_fname(arg1type arg1) { return fname(arg1); }`;
`shim2` likewise with two arguments. -/

/-- Typed semantics of the `shim1` macro body: `return fname(arg1);`. -/
def shim1 {arg1type rettype : Type} (fname : arg1type → rettype)
    (arg1 : arg1type) : rettype :=
  fname arg1

/-- Typed semantics of the `shim2` macro body: `return fname(arg1, arg2);`. -/
def shim2 {arg1type arg2type rettype : Type}
    (fname : arg1type → arg2type → rettype)
    (arg1 : arg1type) (arg2 : arg2type) : rettype :=
  fname arg1 arg2

/-! ## The 26 shim functions (src/cfs-shims.c lines 29–57)

Each definition transcribes one macro instantiation line. -/

def SHIM_CFE_ResourceId_ToInteger (M : Middleware) : CFE_ResourceId_t → c_ulong :=
  shim1 M.CFE_ResourceId_ToInteger

def SHIM_CFE_ResourceId_FromInteger (M : Middleware) : c_ulong → CFE_ResourceId_t :=
  shim1 M.CFE_ResourceId_FromInteger

def SHIM_CFE_ResourceId_Equal (M : Middleware) : CFE_ResourceId_t → CFE_ResourceId_t → Bool :=
  shim2 M.CFE_ResourceId_Equal

def SHIM_CFE_ResourceId_IsDefined (M : Middleware) : CFE_ResourceId_t → Bool :=
  shim1 M.CFE_ResourceId_IsDefined

def SHIM_CFE_SB_MsgId_Equal (M : Middleware) : CFE_SB_MsgId_t → CFE_SB_MsgId_t → Bool :=
  shim2 M.CFE_SB_MsgId_Equal

def SHIM_CFE_SB_MsgIdToValue (M : Middleware) : CFE_SB_MsgId_t → CFE_SB_MsgId_Atom_t :=
  shim1 M.CFE_SB_MsgIdToValue

def SHIM_CFE_SB_ValueToMsgId (M : Middleware) : CFE_SB_MsgId_Atom_t → CFE_SB_MsgId_t :=
  shim1 M.CFE_SB_ValueToMsgId

def SHIM_OS_TimeGetTotalSeconds (M : Middleware) : OS_time_t → c_int64 :=
  shim1 M.OS_TimeGetTotalSeconds

def SHIM_OS_TimeGetTotalMilliseconds (M : Middleware) : OS_time_t → c_int64 :=
  shim1 M.OS_TimeGetTotalMilliseconds

def SHIM_OS_TimeGetTotalMicroseconds (M : Middleware) : OS_time_t → c_int64 :=
  shim1 M.OS_TimeGetTotalMicroseconds

def SHIM_OS_TimeGetTotalNanoseconds (M : Middleware) : OS_time_t → c_int64 :=
  shim1 M.OS_TimeGetTotalNanoseconds

def SHIM_OS_TimeGetFractionalPart (M : Middleware) : OS_time_t → c_int64 :=
  shim1 M.OS_TimeGetFractionalPart

def SHIM_OS_TimeGetSubsecondsPart (M : Middleware) : OS_time_t → c_uint32 :=
  shim1 M.OS_TimeGetSubsecondsPart

def SHIM_OS_TimeGetMillisecondsPart (M : Middleware) : OS_time_t → c_uint32 :=
  shim1 M.OS_TimeGetMillisecondsPart

def SHIM_OS_TimeGetMicrosecondsPart (M : Middleware) : OS_time_t → c_uint32 :=
  shim1 M.OS_TimeGetMicrosecondsPart

def SHIM_OS_TimeGetNanosecondsPart (M : Middleware) : OS_time_t → c_uint32 :=
  shim1 M.OS_TimeGetNanosecondsPart

def SHIM_OS_TimeAssembleFromNanoseconds (M : Middleware) : c_int64 → c_uint32 → OS_time_t :=
  shim2 M.OS_TimeAssembleFromNanoseconds

def SHIM_OS_TimeAssembleFromMicroseconds (M : Middleware) : c_int64 → c_uint32 → OS_time_t :=
  shim2 M.OS_TimeAssembleFromMicroseconds

def SHIM_OS_TimeAssembleFromMilliseconds (M : Middleware) : c_int64 → c_uint32 → OS_time_t :=
  shim2 M.OS_TimeAssembleFromMilliseconds

def SHIM_OS_TimeAssembleFromSubseconds (M : Middleware) : c_int64 → c_uint32 → OS_time_t :=
  shim2 M.OS_TimeAssembleFromSubseconds

def SHIM_OS_TimeAdd (M : Middleware) : OS_time_t → OS_time_t → OS_time_t :=
  shim2 M.OS_TimeAdd

def SHIM_OS_TimeSubtract (M : Middleware) : OS_time_t → OS_time_t → OS_time_t :=
  shim2 M.OS_TimeSubtract

def SHIM_OS_ObjectIdToInteger (M : Middleware) : osal_id_t → c_ulong :=
  shim1 M.OS_ObjectIdToInteger

def SHIM_OS_ObjectIdFromInteger (M : Middleware) : c_ulong → osal_id_t :=
  shim1 M.OS_ObjectIdFromInteger

def SHIM_OS_ObjectIdEqual (M : Middleware) : osal_id_t → osal_id_t → Bool :=
  shim2 M.OS_ObjectIdEqual

def SHIM_OS_ObjectIdDefined (M : Middleware) : osal_id_t → Bool :=
  shim1 M.OS_ObjectIdDefined

/-! ## Syntactic model of the generated C declarations

The claims about names, signatures, macro provenance, counts and call
structure are claims about the C declarations themselves; they are settled
on a record model of the declarations the macros expand to. -/

/-- The C type names occurring in the repository's declarations. -/
inductive CType
  | unsigned_long
  | bool
  | int64
  | uint32
  | CFE_ResourceId_t
  | CFE_SB_MsgId_t
  | CFE_SB_MsgId_Atom_t
  | OS_time_t
  | osal_id_t
  | CFE_Status_t
  | CFE_ES_StackPointer_t
  | CFE_TBL_Handle_t
  | uint8
  deriving DecidableEq, Repr

/-- A C function signature: return type and parameter types in order. -/
structure CSig where
  rettype : CType
  params : List CType
  deriving DecidableEq, Repr

/-- A C function definition of the shape the `shim1`/`shim2` macros expand
to: `rettype name(params...) { return callee(<params at calleeArgs>); }`.
`calleeArgs` lists, in order, the indices of the parameters passed to the
callee. -/
structure CFunDef where
  rettype : CType
  name : String
  params : List CType
  paramNames : List String
  callee : String
  calleeArgs : List Nat
  deriving DecidableEq, Repr

/-- A C function prototype, as written in `src/cfs-shims.h`. -/
structure CProto where
  rettype : CType
  name : String
  params : List CType
  paramNames : List String
  deriving DecidableEq, Repr

/-- The exported signature of a shim definition: its declared return and
parameter types. -/
def CFunDef.exportSig (d : CFunDef) : CSig :=
  ⟨d.rettype, d.params⟩

/-- The signature at which the shim's body invokes the wrapped function:
the call's result is returned at the declared return type, and the
forwarded arguments carry the declared types of the parameters they came
from. -/
def CFunDef.calleeSig (d : CFunDef) : CSig :=
  ⟨d.rettype, d.calleeArgs.map (fun i => d.params.getD i CType.bool)⟩

/-- Semantics of a `CFunDef` body `return callee(...);` against a
middleware oracle `mid` mapping a function name and argument list to a
result. -/
def CFunDef.run {V : Type} [Inhabited V] (d : CFunDef)
    (mid : String → List V → V) (args : List V) : V :=
  mid d.callee (d.calleeArgs.map (fun i => args.getD i default))

/-- Semantics of a `CFunDef` body together with the trace of middleware
calls it performs: the body `return callee(...);` performs exactly one
call, with the forwarded arguments. -/
def CFunDef.runTraced {V : Type} [Inhabited V] (d : CFunDef)
    (mid : String → List V → V) (args : List V) :
    V × List (String × List V) :=
  let callArgs := d.calleeArgs.map (fun i => args.getD i default)
  (mid d.callee callArgs, [(d.callee, callArgs)])

/-- Semantics of a `CFunDef` body against a stateful middleware oracle:
the only state transition performed is the single wrapped call's own. -/
def CFunDef.runState {V W : Type} [Inhabited V] (d : CFunDef)
    (mid : String → List V → W → V × W) (args : List V) (s : W) : V × W :=
  mid d.callee (d.calleeArgs.map (fun i => args.getD i default)) s

namespace CShims

/-! Syntactic expansion of the macros of `src/cfs-shims.c` lines 16–26 and
the instantiation list of lines 29–57. -/

/-- `shim1(rettype, fname, arg1type)` of `src/cfs-shims.c`:
`rettype SHIM_fname(arg1type arg1) { return fname(arg1); }`. -/
def shim1 (rettype : CType) (fname : String) (arg1type : CType) : CFunDef :=
  { rettype := rettype, name := "SHIM_" ++ fname, params := [arg1type],
    paramNames := ["arg1"], callee := fname, calleeArgs := [0] }

/-- `shim2(rettype, fname, arg1type, arg2type)` of `src/cfs-shims.c`:
`rettype SHIM_fname(arg1type arg1, arg2type arg2) { return fname(arg1, arg2); }`. -/
def shim2 (rettype : CType) (fname : String) (arg1type arg2type : CType) : CFunDef :=
  { rettype := rettype, name := "SHIM_" ++ fname, params := [arg1type, arg2type],
    paramNames := ["arg1", "arg2"], callee := fname, calleeArgs := [0, 1] }

/-- The 26 shim definitions of `src/cfs-shims.c` lines 29–57, in source
order. -/
def decls : List CFunDef :=
  [ shim1 .unsigned_long "CFE_ResourceId_ToInteger" .CFE_ResourceId_t
  , shim1 .CFE_ResourceId_t "CFE_ResourceId_FromInteger" .unsigned_long
  , shim2 .bool "CFE_ResourceId_Equal" .CFE_ResourceId_t .CFE_ResourceId_t
  , shim1 .bool "CFE_ResourceId_IsDefined" .CFE_ResourceId_t
  , shim2 .bool "CFE_SB_MsgId_Equal" .CFE_SB_MsgId_t .CFE_SB_MsgId_t
  , shim1 .CFE_SB_MsgId_Atom_t "CFE_SB_MsgIdToValue" .CFE_SB_MsgId_t
  , shim1 .CFE_SB_MsgId_t "CFE_SB_ValueToMsgId" .CFE_SB_MsgId_Atom_t
  , shim1 .int64 "OS_TimeGetTotalSeconds" .OS_time_t
  , shim1 .int64 "OS_TimeGetTotalMilliseconds" .OS_time_t
  , shim1 .int64 "OS_TimeGetTotalMicroseconds" .OS_time_t
  , shim1 .int64 "OS_TimeGetTotalNanoseconds" .OS_time_t
  , shim1 .int64 "OS_TimeGetFractionalPart" .OS_time_t
  , shim1 .uint32 "OS_TimeGetSubsecondsPart" .OS_time_t
  , shim1 .uint32 "OS_TimeGetMillisecondsPart" .OS_time_t
  , shim1 .uint32 "OS_TimeGetMicrosecondsPart" .OS_time_t
  , shim1 .uint32 "OS_TimeGetNanosecondsPart" .OS_time_t
  , shim2 .OS_time_t "OS_TimeAssembleFromNanoseconds" .int64 .uint32
  , shim2 .OS_time_t "OS_TimeAssembleFromMicroseconds" .int64 .uint32
  , shim2 .OS_time_t "OS_TimeAssembleFromMilliseconds" .int64 .uint32
  , shim2 .OS_time_t "OS_TimeAssembleFromSubseconds" .int64 .uint32
  , shim2 .OS_time_t "OS_TimeAdd" .OS_time_t .OS_time_t
  , shim2 .OS_time_t "OS_TimeSubtract" .OS_time_t .OS_time_t
  , shim1 .unsigned_long "OS_ObjectIdToInteger" .osal_id_t
  , shim1 .osal_id_t "OS_ObjectIdFromInteger" .unsigned_long
  , shim2 .bool "OS_ObjectIdEqual" .osal_id_t .osal_id_t
  , shim1 .bool "OS_ObjectIdDefined" .osal_id_t ]

end CShims

namespace SysShims

/-! Syntactic expansion of the macros of `src/cfs-sys/cfs-shims.c` lines
12–22 (which additionally take the parameter names) applied to the
instantiation list of `src/cfs-sys/cfs-shims.h` lines 25–53, which
`src/cfs-sys/cfs-shims.c` includes after pre-defining `shim1`/`shim2`. -/

/-- `shim1(rettype, fname, arg1type, arg1)` of `src/cfs-sys/cfs-shims.c`:
`rettype SHIM_fname(arg1type arg1) { return fname(arg1); }`. -/
def shim1 (rettype : CType) (fname : String) (arg1type : CType)
    (arg1 : String) : CFunDef :=
  { rettype := rettype, name := "SHIM_" ++ fname, params := [arg1type],
    paramNames := [arg1], callee := fname, calleeArgs := [0] }

/-- `shim2(rettype, fname, arg1type, arg1, arg2type, arg2)` of
`src/cfs-sys/cfs-shims.c`. -/
def shim2 (rettype : CType) (fname : String) (arg1type : CType)
    (arg1 : String) (arg2type : CType) (arg2 : String) : CFunDef :=
  { rettype := rettype, name := "SHIM_" ++ fname, params := [arg1type, arg2type],
    paramNames := [arg1, arg2], callee := fname, calleeArgs := [0, 1] }

/-- The 26 shim definitions generated by `src/cfs-sys/cfs-shims.c` from the
list in `src/cfs-sys/cfs-shims.h` lines 25–53, in source order. -/
def decls : List CFunDef :=
  [ shim1 .unsigned_long "CFE_ResourceId_ToInteger" .CFE_ResourceId_t "id"
  , shim1 .CFE_ResourceId_t "CFE_ResourceId_FromInteger" .unsigned_long "Value"
  , shim2 .bool "CFE_ResourceId_Equal" .CFE_ResourceId_t "id1" .CFE_ResourceId_t "id2"
  , shim1 .bool "CFE_ResourceId_IsDefined" .CFE_ResourceId_t "id"
  , shim2 .bool "CFE_SB_MsgId_Equal" .CFE_SB_MsgId_t "MsgId1" .CFE_SB_MsgId_t "MsgId2"
  , shim1 .CFE_SB_MsgId_Atom_t "CFE_SB_MsgIdToValue" .CFE_SB_MsgId_t "MsgId"
  , shim1 .CFE_SB_MsgId_t "CFE_SB_ValueToMsgId" .CFE_SB_MsgId_Atom_t "MsgIdValue"
  , shim1 .int64 "OS_TimeGetTotalSeconds" .OS_time_t "tm"
  , shim1 .int64 "OS_TimeGetTotalMilliseconds" .OS_time_t "tm"
  , shim1 .int64 "OS_TimeGetTotalMicroseconds" .OS_time_t "tm"
  , shim1 .int64 "OS_TimeGetTotalNanoseconds" .OS_time_t "tm"
  , shim1 .int64 "OS_TimeGetFractionalPart" .OS_time_t "tm"
  , shim1 .uint32 "OS_TimeGetSubsecondsPart" .OS_time_t "tm"
  , shim1 .uint32 "OS_TimeGetMillisecondsPart" .OS_time_t "tm"
  , shim1 .uint32 "OS_TimeGetMicrosecondsPart" .OS_time_t "tm"
  , shim1 .uint32 "OS_TimeGetNanosecondsPart" .OS_time_t "tm"
  , shim2 .OS_time_t "OS_TimeAssembleFromNanoseconds" .int64 "seconds" .uint32 "nanoseconds"
  , shim2 .OS_time_t "OS_TimeAssembleFromMicroseconds" .int64 "seconds" .uint32 "microseconds"
  , shim2 .OS_time_t "OS_TimeAssembleFromMilliseconds" .int64 "seconds" .uint32 "milliseconds"
  , shim2 .OS_time_t "OS_TimeAssembleFromSubseconds" .int64 "seconds" .uint32 "subseconds"
  , shim2 .OS_time_t "OS_TimeAdd" .OS_time_t "time1" .OS_time_t "time2"
  , shim2 .OS_time_t "OS_TimeSubtract" .OS_time_t "time1" .OS_time_t "time2"
  , shim1 .unsigned_long "OS_ObjectIdToInteger" .osal_id_t "object_id"
  , shim1 .osal_id_t "OS_ObjectIdFromInteger" .unsigned_long "value"
  , shim2 .bool "OS_ObjectIdEqual" .osal_id_t "object_id1" .osal_id_t "object_id2"
  , shim1 .bool "OS_ObjectIdDefined" .osal_id_t "object_id" ]

end SysShims

/-! ## The shim prototypes (src/cfs-shims.h lines 11–36)

These are written out by hand in the header; they are transcribed here so
that their agreement with the definitions can be checked. -/

/-- The 26 prototypes of `src/cfs-shims.h`, in source order. -/
def cfsShimProtos : List CProto :=
  [ ⟨.unsigned_long, "SHIM_CFE_ResourceId_ToInteger", [.CFE_ResourceId_t], ["id"]⟩
  , ⟨.CFE_ResourceId_t, "SHIM_CFE_ResourceId_FromInteger", [.unsigned_long], ["Value"]⟩
  , ⟨.bool, "SHIM_CFE_ResourceId_Equal", [.CFE_ResourceId_t, .CFE_ResourceId_t], ["id1", "id2"]⟩
  , ⟨.bool, "SHIM_CFE_ResourceId_IsDefined", [.CFE_ResourceId_t], ["id"]⟩
  , ⟨.bool, "SHIM_CFE_SB_MsgId_Equal", [.CFE_SB_MsgId_t, .CFE_SB_MsgId_t], ["MsgId1", "MsgId2"]⟩
  , ⟨.CFE_SB_MsgId_Atom_t, "SHIM_CFE_SB_MsgIdToValue", [.CFE_SB_MsgId_t], ["MsgId"]⟩
  , ⟨.CFE_SB_MsgId_t, "SHIM_CFE_SB_ValueToMsgId", [.CFE_SB_MsgId_Atom_t], ["MsgIdValue"]⟩
  , ⟨.int64, "SHIM_OS_TimeGetTotalSeconds", [.OS_time_t], ["tm"]⟩
  , ⟨.int64, "SHIM_OS_TimeGetTotalMilliseconds", [.OS_time_t], ["tm"]⟩
  , ⟨.int64, "SHIM_OS_TimeGetTotalMicroseconds", [.OS_time_t], ["tm"]⟩
  , ⟨.int64, "SHIM_OS_TimeGetTotalNanoseconds", [.OS_time_t], ["tm"]⟩
  , ⟨.int64, "SHIM_OS_TimeGetFractionalPart", [.OS_time_t], ["tm"]⟩
  , ⟨.uint32, "SHIM_OS_TimeGetSubsecondsPart", [.OS_time_t], ["tm"]⟩
  , ⟨.uint32, "SHIM_OS_TimeGetMillisecondsPart", [.OS_time_t], ["tm"]⟩
  , ⟨.uint32, "SHIM_OS_TimeGetMicrosecondsPart", [.OS_time_t], ["tm"]⟩
  , ⟨.uint32, "SHIM_OS_TimeGetNanosecondsPart", [.OS_time_t], ["tm"]⟩
  , ⟨.OS_time_t, "SHIM_OS_TimeAssembleFromNanoseconds", [.int64, .uint32], ["seconds", "nanoseconds"]⟩
  , ⟨.OS_time_t, "SHIM_OS_TimeAssembleFromMicroseconds", [.int64, .uint32], ["seconds", "microseconds"]⟩
  , ⟨.OS_time_t, "SHIM_OS_TimeAssembleFromMilliseconds", [.int64, .uint32], ["seconds", "milliseconds"]⟩
  , ⟨.OS_time_t, "SHIM_OS_TimeAssembleFromSubseconds", [.int64, .uint32], ["seconds", "subseconds"]⟩
  , ⟨.OS_time_t, "SHIM_OS_TimeAdd", [.OS_time_t, .OS_time_t], ["time1", "time2"]⟩
  , ⟨.OS_time_t, "SHIM_OS_TimeSubtract", [.OS_time_t, .OS_time_t], ["time1", "time2"]⟩
  , ⟨.unsigned_long, "SHIM_OS_ObjectIdToInteger", [.osal_id_t], ["object_id"]⟩
  , ⟨.osal_id_t, "SHIM_OS_ObjectIdFromInteger", [.unsigned_long], ["value"]⟩
  , ⟨.bool, "SHIM_OS_ObjectIdEqual", [.osal_id_t, .osal_id_t], ["object_id1", "object_id2"]⟩
  , ⟨.bool, "SHIM_OS_ObjectIdDefined", [.osal_id_t], ["object_id"]⟩ ]

/-! ## Constant re-exports (src/cfs-sys/cfs-api.h, src/cfs-sys/cfs-shims.c)

`S(IDENT)` expands to `const CFE_Status_t S_IDENT = IDENT;` and
`X(IDENT, TYPE)` to `const TYPE X_IDENT = IDENT;`.  The two `uint8` QOS
globals (cfs-api.h lines 192–193) and the bindgen workaround global
(cfs-sys/cfs-shims.c line 27) are written out directly. -/

/-- A C global-variable definition `[const] ctype name = init;`, with the
initializer recorded as the source expression text. -/
structure CGlobalDecl where
  isConst : Bool
  ctype : CType
  name : String
  init : String
  deriving DecidableEq, Repr

/-- The value of a global under an environment giving the value of each
middleware constant expression: the global is initialized to (and holds)
exactly the value of its initializer expression. -/
def CGlobalDecl.value {V : Type} (d : CGlobalDecl) (env : String → V) : V :=
  env d.init

/-- `S(IDENT)` of `src/cfs-sys/cfs-api.h` line 42:
`const CFE_Status_t S_IDENT = IDENT;`. -/
def S (ident : String) : CGlobalDecl :=
  ⟨true, CType.CFE_Status_t, "S_" ++ ident, ident⟩

/-- `X(IDENT, TYPE)` of `src/cfs-sys/cfs-api.h` line 182:
`const TYPE X_IDENT = IDENT;`. -/
def X (ident : String) (ty : CType) : CGlobalDecl :=
  ⟨true, ty, "X_" ++ ident, ident⟩

/-- The 137 identifiers passed to `S` in `src/cfs-sys/cfs-api.h` lines
44–180, in source order. -/
def sIdents : List String :=
  [ "CFE_SEVERITY_BITMASK", "CFE_SEVERITY_SUCCESS", "CFE_SEVERITY_INFO"
  , "CFE_SEVERITY_ERROR", "CFE_SERVICE_BITMASK", "CFE_EVENTS_SERVICE"
  , "CFE_EXECUTIVE_SERVICE", "CFE_FILE_SERVICE", "CFE_GENERIC_SERVICE"
  , "CFE_SOFTWARE_BUS_SERVICE", "CFE_TABLE_SERVICE", "CFE_TIME_SERVICE"
  , "CFE_SUCCESS", "CFE_STATUS_NO_COUNTER_INCREMENT", "CFE_STATUS_WRONG_MSG_LENGTH"
  , "CFE_STATUS_UNKNOWN_MSG_ID", "CFE_STATUS_BAD_COMMAND_CODE"
  , "CFE_STATUS_EXTERNAL_RESOURCE_FAIL", "CFE_STATUS_REQUEST_ALREADY_PENDING"
  , "CFE_STATUS_NOT_IMPLEMENTED", "CFE_EVS_UNKNOWN_FILTER"
  , "CFE_EVS_APP_NOT_REGISTERED", "CFE_EVS_APP_ILLEGAL_APP_ID"
  , "CFE_EVS_APP_FILTER_OVERLOAD", "CFE_EVS_RESET_AREA_POINTER"
  , "CFE_EVS_EVT_NOT_REGISTERED", "CFE_EVS_FILE_WRITE_ERROR"
  , "CFE_EVS_INVALID_PARAMETER", "CFE_EVS_NOT_IMPLEMENTED"
  , "CFE_ES_ERR_RESOURCEID_NOT_VALID", "CFE_ES_ERR_NAME_NOT_FOUND"
  , "CFE_ES_ERR_APP_CREATE", "CFE_ES_ERR_CHILD_TASK_CREATE"
  , "CFE_ES_ERR_SYS_LOG_FULL", "CFE_ES_ERR_MEM_BLOCK_SIZE"
  , "CFE_ES_ERR_LOAD_LIB", "CFE_ES_BAD_ARGUMENT"
  , "CFE_ES_ERR_CHILD_TASK_REGISTER", "CFE_ES_CDS_ALREADY_EXISTS"
  , "CFE_ES_CDS_INSUFFICIENT_MEMORY", "CFE_ES_CDS_INVALID_NAME"
  , "CFE_ES_CDS_INVALID_SIZE", "CFE_ES_CDS_INVALID"
  , "CFE_ES_CDS_ACCESS_ERROR", "CFE_ES_FILE_IO_ERR"
  , "CFE_ES_RST_ACCESS_ERR", "CFE_ES_ERR_APP_REGISTER"
  , "CFE_ES_ERR_CHILD_TASK_DELETE", "CFE_ES_ERR_CHILD_TASK_DELETE_MAIN_TASK"
  , "CFE_ES_CDS_BLOCK_CRC_ERR", "CFE_ES_MUT_SEM_DELETE_ERR"
  , "CFE_ES_BIN_SEM_DELETE_ERR", "CFE_ES_COUNT_SEM_DELETE_ERR"
  , "CFE_ES_QUEUE_DELETE_ERR", "CFE_ES_FILE_CLOSE_ERR"
  , "CFE_ES_CDS_WRONG_TYPE_ERR", "CFE_ES_CDS_OWNER_ACTIVE_ERR"
  , "CFE_ES_APP_CLEANUP_ERR", "CFE_ES_TIMER_DELETE_ERR"
  , "CFE_ES_BUFFER_NOT_IN_POOL", "CFE_ES_TASK_DELETE_ERR"
  , "CFE_ES_OPERATION_TIMED_OUT", "CFE_ES_LIB_ALREADY_LOADED"
  , "CFE_ES_ERR_SYS_LOG_TRUNCATED", "CFE_ES_NO_RESOURCE_IDS_AVAILABLE"
  , "CFE_ES_POOL_BLOCK_INVALID", "CFE_ES_ERR_DUPLICATE_NAME"
  , "CFE_ES_NOT_IMPLEMENTED", "CFE_FS_BAD_ARGUMENT"
  , "CFE_FS_INVALID_PATH", "CFE_FS_FNAME_TOO_LONG"
  , "CFE_FS_NOT_IMPLEMENTED", "CFE_MSG_WRONG_MSG_TYPE"
  , "CFE_SB_TIME_OUT", "CFE_SB_NO_MESSAGE"
  , "CFE_SB_BAD_ARGUMENT", "CFE_SB_MAX_PIPES_MET"
  , "CFE_SB_PIPE_CR_ERR", "CFE_SB_PIPE_RD_ERR"
  , "CFE_SB_MSG_TOO_BIG", "CFE_SB_BUF_ALOC_ERR"
  , "CFE_SB_MAX_MSGS_MET", "CFE_SB_MAX_DESTS_MET"
  , "CFE_SB_INTERNAL_ERR", "CFE_SB_WRONG_MSG_TYPE"
  , "CFE_SB_BUFFER_INVALID", "CFE_SB_NOT_IMPLEMENTED"
  , "CFE_TBL_ERR_INVALID_HANDLE", "CFE_TBL_ERR_INVALID_NAME"
  , "CFE_TBL_ERR_INVALID_SIZE", "CFE_TBL_INFO_UPDATE_PENDING"
  , "CFE_TBL_ERR_NEVER_LOADED", "CFE_TBL_ERR_REGISTRY_FULL"
  , "CFE_TBL_WARN_DUPLICATE", "CFE_TBL_ERR_NO_ACCESS"
  , "CFE_TBL_ERR_UNREGISTERED", "CFE_TBL_ERR_HANDLES_FULL"
  , "CFE_TBL_ERR_DUPLICATE_DIFF_SIZE", "CFE_TBL_ERR_DUPLICATE_NOT_OWNED"
  , "CFE_TBL_INFO_UPDATED", "CFE_TBL_ERR_NO_BUFFER_AVAIL"
  , "CFE_TBL_ERR_DUMP_ONLY", "CFE_TBL_ERR_ILLEGAL_SRC_TYPE"
  , "CFE_TBL_ERR_LOAD_IN_PROGRESS", "CFE_TBL_ERR_FILE_TOO_LARGE"
  , "CFE_TBL_WARN_SHORT_FILE", "CFE_TBL_ERR_BAD_CONTENT_ID"
  , "CFE_TBL_INFO_NO_UPDATE_PENDING", "CFE_TBL_INFO_TABLE_LOCKED"
  , "CFE_TBL_INFO_VALIDATION_PENDING", "CFE_TBL_INFO_NO_VALIDATION_PENDING"
  , "CFE_TBL_ERR_BAD_SUBTYPE_ID", "CFE_TBL_ERR_FILE_SIZE_INCONSISTENT"
  , "CFE_TBL_ERR_NO_STD_HEADER", "CFE_TBL_ERR_NO_TBL_HEADER"
  , "CFE_TBL_ERR_FILENAME_TOO_LONG", "CFE_TBL_ERR_FILE_FOR_WRONG_TABLE"
  , "CFE_TBL_ERR_LOAD_INCOMPLETE", "CFE_TBL_WARN_PARTIAL_LOAD"
  , "CFE_TBL_ERR_PARTIAL_LOAD", "CFE_TBL_INFO_DUMP_PENDING"
  , "CFE_TBL_ERR_INVALID_OPTIONS", "CFE_TBL_WARN_NOT_CRITICAL"
  , "CFE_TBL_INFO_RECOVERED_TBL", "CFE_TBL_ERR_BAD_SPACECRAFT_ID"
  , "CFE_TBL_ERR_BAD_PROCESSOR_ID", "CFE_TBL_MESSAGE_ERROR"
  , "CFE_TBL_ERR_SHORT_FILE", "CFE_TBL_ERR_ACCESS"
  , "CFE_TBL_BAD_ARGUMENT", "CFE_TBL_NOT_IMPLEMENTED"
  , "CFE_TIME_NOT_IMPLEMENTED", "CFE_TIME_INTERNAL_ONLY"
  , "CFE_TIME_OUT_OF_RANGE", "CFE_TIME_TOO_MANY_SYNCH_CALLBACKS"
  , "CFE_TIME_CALLBACK_NOT_REGISTERED", "CFE_TIME_BAD_ARGUMENT" ]

/-- The status-constant globals of `src/cfs-sys/cfs-api.h` lines 44–180. -/
def sDecls : List CGlobalDecl :=
  sIdents.map S

/-- The 7 identifier/type pairs passed to `X` in `src/cfs-sys/cfs-api.h`
lines 184–190, in source order. -/
def xIdents : List (String × CType) :=
  [ ("CFE_ES_TASK_STACK_ALLOCATE", CType.CFE_ES_StackPointer_t)
  , ("CFE_RESOURCEID_RESERVED", CType.CFE_ResourceId_t)
  , ("CFE_RESOURCEID_UNDEFINED", CType.CFE_ResourceId_t)
  , ("CFE_SB_MSGID_RESERVED", CType.CFE_SB_MsgId_t)
  , ("CFE_SB_INVALID_MSG_ID", CType.CFE_SB_MsgId_t)
  , ("CFE_TBL_BAD_TABLE_HANDLE", CType.CFE_TBL_Handle_t)
  , ("OS_OBJECT_ID_UNDEFINED", CType.osal_id_t) ]

/-- The typed-constant globals of `src/cfs-sys/cfs-api.h` lines 184–190. -/
def xDecls : List CGlobalDecl :=
  xIdents.map (fun p => X p.1 p.2)

/-- The two directly written globals of `src/cfs-sys/cfs-api.h` lines
192–193: `const uint8 X_CFE_SB_DEFAULT_QOS_PRIORITY = CFE_SB_DEFAULT_QOS.Priority;`
and likewise for `Reliability`. -/
def qosDecls : List CGlobalDecl :=
  [ ⟨true, CType.uint8, "X_CFE_SB_DEFAULT_QOS_PRIORITY", "CFE_SB_DEFAULT_QOS.Priority"⟩
  , ⟨true, CType.uint8, "X_CFE_SB_DEFAULT_QOS_RELIABILITY", "CFE_SB_DEFAULT_QOS.Reliability"⟩ ]

/-- All constant globals of `src/cfs-sys/cfs-api.h`, in source order. -/
def cfsApiDecls : List CGlobalDecl :=
  sDecls ++ xDecls ++ qosDecls

/-- The directly written global of `src/cfs-sys/cfs-shims.c` line 27
(a bindgen workaround for pointer constants; note it is not `const`):
`CFE_ES_StackPointer_t X_CFE_ES_TASK_STACK_ALLOCATE = CFE_ES_TASK_STACK_ALLOCATE;`. -/
def sysWorkaroundDecl : CGlobalDecl :=
  ⟨false, CType.CFE_ES_StackPointer_t, "X_CFE_ES_TASK_STACK_ALLOCATE",
    "CFE_ES_TASK_STACK_ALLOCATE"⟩

/-- Every constant re-export in the repository, in source order. -/
def allConstDecls : List CGlobalDecl :=
  cfsApiDecls ++ [sysWorkaroundDecl]

/-! ## Helper lemmas -/

/-- Mapping `getD` over `range` of a list's length recovers the list. -/
theorem getD_range_map {V : Type} [Inhabited V] (args : List V) :
    (List.range args.length).map (fun i => args.getD i default) = args := by
  induction args with
  | nil => rfl
  | cons a as ih =>
    rw [List.length_cons, List.range_succ_eq_map, List.map_cons, List.map_map]
    refine congrArg₂ List.cons (List.getD_cons_zero) ?_
    have hcomp : ((fun i => (a :: as).getD i default) ∘ Nat.succ) =
        (fun i => as.getD i default) := by
      funext i
      exact List.getD_cons_succ
    rw [hcomp, ih]

/-- A shim body that forwards the parameters at indices `0..n-1` passes its
argument list through unchanged. -/
theorem CFunDef.forward_eq {V : Type} [Inhabited V] (d : CFunDef)
    (hd : d.calleeArgs = List.range d.params.length)
    (args : List V) (h : args.length = d.params.length) :
    d.calleeArgs.map (fun i => args.getD i default) = args := by
  rw [hd, ← h, getD_range_map]

/-- Every shim definition in either file forwards exactly its parameters,
in order. -/
theorem shims_forward_params :
    ∀ d ∈ CShims.decls ++ SysShims.decls,
      d.calleeArgs = List.range d.params.length := by
  decide

/-- Congruence for the `shim1` body. -/
theorem shim1_congr {a r : Type} {f g : a → r} {x y : a}
    (hf : f = g) (hx : x = y) : shim1 f x = shim1 g y := by
  rw [hf, hx]

/-- Congruence for the `shim2` body. -/
theorem shim2_congr {a b r : Type} {f g : a → b → r} {x y : a} {u v : b}
    (hf : f = g) (hx : x = y) (hu : u = v) : shim2 f x u = shim2 g y v := by
  rw [hf, hx, hu]

/-- `CFunDef.run` depends only on the callee and the forwarded argument
positions. -/
theorem CFunDef.run_congr {V : Type} [Inhabited V] {d e : CFunDef}
    (hc : d.callee = e.callee) (ha : d.calleeArgs = e.calleeArgs)
    (mid : String → List V → V) (args : List V) :
    d.run mid args = e.run mid args := by
  simp only [CFunDef.run, hc, ha]

/-- Position by position, the two shim files call the same middleware
function and forward the same parameter positions. -/
theorem zipped_shims_same_call :
    ∀ p ∈ CShims.decls.zip SysShims.decls,
      p.1.callee = p.2.callee ∧ p.1.calleeArgs = p.2.calleeArgs := by
  decide

/-- An arbitrary concrete middleware instantiation; used only to witness
universally quantified theorems at a concrete input. -/
def sampleMiddleware : Middleware where
  CFE_ResourceId_ToInteger := fun id => id.val
  CFE_ResourceId_FromInteger := fun n => ⟨n⟩
  CFE_ResourceId_Equal := fun a b => a.val == b.val
  CFE_ResourceId_IsDefined := fun a => a.val != 0
  CFE_SB_MsgId_Equal := fun a b => a.val == b.val
  CFE_SB_MsgIdToValue := fun a => a.val
  CFE_SB_ValueToMsgId := fun n => ⟨n⟩
  OS_TimeGetTotalSeconds := fun t => t.ticks
  OS_TimeGetTotalMilliseconds := fun t => t.ticks
  OS_TimeGetTotalMicroseconds := fun t => t.ticks
  OS_TimeGetTotalNanoseconds := fun t => t.ticks
  OS_TimeGetFractionalPart := fun t => t.ticks
  OS_TimeGetSubsecondsPart := fun t => t.ticks.toNat
  OS_TimeGetMillisecondsPart := fun t => t.ticks.toNat
  OS_TimeGetMicrosecondsPart := fun t => t.ticks.toNat
  OS_TimeGetNanosecondsPart := fun t => t.ticks.toNat
  OS_TimeAssembleFromNanoseconds := fun s n => ⟨s + n⟩
  OS_TimeAssembleFromMicroseconds := fun s n => ⟨s + n⟩
  OS_TimeAssembleFromMilliseconds := fun s n => ⟨s + n⟩
  OS_TimeAssembleFromSubseconds := fun s n => ⟨s + n⟩
  OS_TimeAdd := fun t u => ⟨t.ticks + u.ticks⟩
  OS_TimeSubtract := fun t u => ⟨t.ticks - u.ticks⟩
  OS_ObjectIdToInteger := fun a => a.val
  OS_ObjectIdFromInteger := fun n => ⟨n⟩
  OS_ObjectIdEqual := fun a b => a.val == b.val
  OS_ObjectIdDefined := fun a => a.val != 0

/-- A second concrete middleware that agrees with `sampleMiddleware` on
`CFE_ResourceId_ToInteger` but differs elsewhere; used to witness that a
shim's result depends only on the wrapped function it forwards to. -/
def sampleMiddlewareB : Middleware :=
  { sampleMiddleware with CFE_ResourceId_IsDefined := fun _ => true }

/-! ## Claim theorems -/

/-- C1: every shim function exported by the repository, applied to any
argument tuple, returns exactly the value the wrapped middleware function
returns on the same arguments in the same order.  Stated both on the typed
embedding of the 26 shims of `src/cfs-shims.c` (extensional equality with
the wrapped function, for every middleware) and on the declaration model of
both shim files (running any shim body on any argument list of the declared
arity yields exactly the wrapped call's result on that same list). -/
theorem shim_returns_wrapped_value :
    (∀ M : Middleware,
      (∀ a, SHIM_CFE_ResourceId_ToInteger M a = M.CFE_ResourceId_ToInteger a) ∧
      (∀ a, SHIM_CFE_ResourceId_FromInteger M a = M.CFE_ResourceId_FromInteger a) ∧
      (∀ a b, SHIM_CFE_ResourceId_Equal M a b = M.CFE_ResourceId_Equal a b) ∧
      (∀ a, SHIM_CFE_ResourceId_IsDefined M a = M.CFE_ResourceId_IsDefined a) ∧
      (∀ a b, SHIM_CFE_SB_MsgId_Equal M a b = M.CFE_SB_MsgId_Equal a b) ∧
      (∀ a, SHIM_CFE_SB_MsgIdToValue M a = M.CFE_SB_MsgIdToValue a) ∧
      (∀ a, SHIM_CFE_SB_ValueToMsgId M a = M.CFE_SB_ValueToMsgId a) ∧
      (∀ a, SHIM_OS_TimeGetTotalSeconds M a = M.OS_TimeGetTotalSeconds a) ∧
      (∀ a, SHIM_OS_TimeGetTotalMilliseconds M a = M.OS_TimeGetTotalMilliseconds a) ∧
      (∀ a, SHIM_OS_TimeGetTotalMicroseconds M a = M.OS_TimeGetTotalMicroseconds a) ∧
      (∀ a, SHIM_OS_TimeGetTotalNanoseconds M a = M.OS_TimeGetTotalNanoseconds a) ∧
      (∀ a, SHIM_OS_TimeGetFractionalPart M a = M.OS_TimeGetFractionalPart a) ∧
      (∀ a, SHIM_OS_TimeGetSubsecondsPart M a = M.OS_TimeGetSubsecondsPart a) ∧
      (∀ a, SHIM_OS_TimeGetMillisecondsPart M a = M.OS_TimeGetMillisecondsPart a) ∧
      (∀ a, SHIM_OS_TimeGetMicrosecondsPart M a = M.OS_TimeGetMicrosecondsPart a) ∧
      (∀ a, SHIM_OS_TimeGetNanosecondsPart M a = M.OS_TimeGetNanosecondsPart a) ∧
      (∀ a b, SHIM_OS_TimeAssembleFromNanoseconds M a b = M.OS_TimeAssembleFromNanoseconds a b) ∧
      (∀ a b, SHIM_OS_TimeAssembleFromMicroseconds M a b = M.OS_TimeAssembleFromMicroseconds a b) ∧
      (∀ a b, SHIM_OS_TimeAssembleFromMilliseconds M a b = M.OS_TimeAssembleFromMilliseconds a b) ∧
      (∀ a b, SHIM_OS_TimeAssembleFromSubseconds M a b = M.OS_TimeAssembleFromSubseconds a b) ∧
      (∀ a b, SHIM_OS_TimeAdd M a b = M.OS_TimeAdd a b) ∧
      (∀ a b, SHIM_OS_TimeSubtract M a b = M.OS_TimeSubtract a b) ∧
      (∀ a, SHIM_OS_ObjectIdToInteger M a = M.OS_ObjectIdToInteger a) ∧
      (∀ a, SHIM_OS_ObjectIdFromInteger M a = M.OS_ObjectIdFromInteger a) ∧
      (∀ a b, SHIM_OS_ObjectIdEqual M a b = M.OS_ObjectIdEqual a b) ∧
      (∀ a, SHIM_OS_ObjectIdDefined M a = M.OS_ObjectIdDefined a)) ∧
    (∀ d ∈ CShims.decls ++ SysShims.decls,
      ∀ (V : Type) [Inhabited V] (mid : String → List V → V) (args : List V),
        args.length = d.params.length → d.run mid args = mid d.callee args) := by
  refine ⟨?_, ?_⟩
  · intro M
    exact ⟨fun _ => rfl, fun _ => rfl, fun _ _ => rfl, fun _ => rfl,
      fun _ _ => rfl, fun _ => rfl, fun _ => rfl,
      fun _ => rfl, fun _ => rfl, fun _ => rfl, fun _ => rfl, fun _ => rfl,
      fun _ => rfl, fun _ => rfl, fun _ => rfl, fun _ => rfl,
      fun _ _ => rfl, fun _ _ => rfl, fun _ _ => rfl, fun _ _ => rfl,
      fun _ _ => rfl, fun _ _ => rfl,
      fun _ => rfl, fun _ => rfl, fun _ _ => rfl, fun _ => rfl⟩
  · intro d hd V _ mid args h
    simp only [CFunDef.run]
    rw [CFunDef.forward_eq d (shims_forward_params d hd) args h]

/-- Witness for C1: the first shim of `src/cfs-shims.c`, run on the
one-element argument list `[5]` against a middleware oracle that returns
its first argument, returns that middleware call's value `5`. -/
theorem shim_returns_wrapped_value_witness :
    (CShims.shim1 CType.unsigned_long "CFE_ResourceId_ToInteger"
        CType.CFE_ResourceId_t).run (fun _ args => args.getD 0 (0 : Nat)) [5] = 5 :=
  shim_returns_wrapped_value.2
    (CShims.shim1 CType.unsigned_long "CFE_ResourceId_ToInteger" CType.CFE_ResourceId_t)
    (by decide) Nat (fun _ args => args.getD 0 (0 : Nat)) [5] (by decide)

/-- C2: each of the 26 wrapped inline functions is re-exposed as an
exported function named `SHIM_` followed by the wrapped function's name,
whose declared signature (return type, parameter count, parameter types in
order) is exactly the signature at which the wrapped function is invoked;
and the hand-written prototypes of `src/cfs-shims.h` carry exactly these
names and signatures. -/
theorem shim_signature_reexport :
    CShims.decls.length = 26 ∧
    (∀ d ∈ CShims.decls, d.name = "SHIM_" ++ d.callee ∧ d.exportSig = d.calleeSig) ∧
    cfsShimProtos.map (fun p => (p.name, CSig.mk p.rettype p.params)) =
      CShims.decls.map (fun d => (d.name, d.exportSig)) := by
  refine ⟨rfl, by decide, by decide⟩

/-- Witness for C2: the first shim of `src/cfs-shims.c` is named
`SHIM_CFE_ResourceId_ToInteger` and its exported signature equals the
signature at which it invokes `CFE_ResourceId_ToInteger`. -/
theorem shim_signature_reexport_witness :
    (CShims.shim1 CType.unsigned_long "CFE_ResourceId_ToInteger"
        CType.CFE_ResourceId_t).name = "SHIM_" ++ "CFE_ResourceId_ToInteger" ∧
    (CShims.shim1 CType.unsigned_long "CFE_ResourceId_ToInteger"
        CType.CFE_ResourceId_t).exportSig =
      (CShims.shim1 CType.unsigned_long "CFE_ResourceId_ToInteger"
        CType.CFE_ResourceId_t).calleeSig :=
  shim_signature_reexport.2.1
    (CShims.shim1 CType.unsigned_long "CFE_ResourceId_ToInteger" CType.CFE_ResourceId_t)
    (by decide)

/-- C4: no shim validates, transforms or caches anything.  On the
declaration model of both shim files: running any shim on an argument list
of its declared arity (i) produces a middleware-call trace consisting of
exactly one call, to the wrapped function, with the shim's own arguments
passed through unmodified and in order — every invocation re-invokes the
wrapped function, so no memoization is possible — and (ii) against a
stateful middleware oracle, the state transition performed is exactly the
single wrapped call's own: no other state is read or written. -/
theorem shim_pure_forwarding :
    ∀ d ∈ CShims.decls ++ SysShims.decls,
      ∀ (V : Type) [Inhabited V] (args : List V), args.length = d.params.length →
        (∀ (mid : String → List V → V),
          d.runTraced mid args = (mid d.callee args, [(d.callee, args)])) ∧
        (∀ (W : Type) (mid : String → List V → W → V × W) (s : W),
          d.runState mid args s = mid d.callee args s) := by
  intro d hd V _ args h
  have hfwd := CFunDef.forward_eq d (shims_forward_params d hd) args h
  constructor
  · intro mid
    simp only [CFunDef.runTraced, hfwd]
  · intro W mid s
    simp only [CFunDef.runState, hfwd]

/-- Witness for C4: the `OS_TimeAdd` shim of `src/cfs-sys/cfs-shims.c`,
run on the two-element argument list `[3, 4]`, performs exactly the one
middleware call `OS_TimeAdd [3, 4]` and returns its value `7`. -/
theorem shim_pure_forwarding_witness :
    (SysShims.shim2 CType.OS_time_t "OS_TimeAdd" CType.OS_time_t "time1"
        CType.OS_time_t "time2").runTraced
      (fun _ args => args.getD 0 (0 : Nat) + args.getD 1 0) [3, 4] =
      (7, [("OS_TimeAdd", [3, 4])]) :=
  ((shim_pure_forwarding
      (SysShims.shim2 CType.OS_time_t "OS_TimeAdd" CType.OS_time_t "time1"
        CType.OS_time_t "time2")
      (by decide) Nat [3, 4] (by decide)).1
    (fun _ args => args.getD 0 (0 : Nat) + args.getD 1 0))

/-- C5: error handling in every shim is pure passthrough: whatever value
(an error status included) the wrapped middleware call returns on the
shim's own arguments, the shim returns that exact value; the body is a
single unconditional call, so the shim has no error branch, no error
translation, and (being a total function of the oracle's answer) no
failure mode of its own. -/
theorem shim_error_passthrough :
    ∀ d ∈ CShims.decls ++ SysShims.decls,
      ∀ (V : Type) [Inhabited V] (mid : String → List V → V) (args : List V)
        (e : V), args.length = d.params.length →
          mid d.callee args = e → d.run mid args = e := by
  intro d hd V _ mid args e h herr
  simp only [CFunDef.run]
  rw [CFunDef.forward_eq d (shims_forward_params d hd) args h, herr]

/-- Witness for C5: the `CFE_SB_MsgIdToValue` shim of `src/cfs-shims.c`,
when the middleware oracle answers with the error-like value `-1` on its
argument, returns exactly `-1`. -/
theorem shim_error_passthrough_witness :
    (CShims.shim1 CType.CFE_SB_MsgId_Atom_t "CFE_SB_MsgIdToValue"
        CType.CFE_SB_MsgId_t).run (fun _ _ => (-1 : Int)) [(2 : Int)] = -1 :=
  shim_error_passthrough
    (CShims.shim1 CType.CFE_SB_MsgId_Atom_t "CFE_SB_MsgIdToValue" CType.CFE_SB_MsgId_t)
    (by decide) Int (fun _ _ => (-1 : Int)) [(2 : Int)] (-1) (by decide) rfl

/-- C3 as stated is false: `src/cfs-sys/cfs-api.h` line 192 exports the
global `X_CFE_SB_DEFAULT_QOS_PRIORITY`, an `X_IDENT`-named global whose
initializer is the field projection `CFE_SB_DEFAULT_QOS.Priority`, not the
identifier `CFE_SB_DEFAULT_QOS_PRIORITY` (no middleware constant of that
name exists); in an environment separating the two expressions its value
differs from the value of `IDENT`. -/
theorem qos_global_value_not_ident :
    qosDecls.getD 0 (S "") ∈ cfsApiDecls ∧
    (qosDecls.getD 0 (S "")).name = "X_" ++ "CFE_SB_DEFAULT_QOS_PRIORITY" ∧
    (qosDecls.getD 0 (S "")).init ≠ "CFE_SB_DEFAULT_QOS_PRIORITY" ∧
    (qosDecls.getD 0 (S "")).value
        (fun s => if s = "CFE_SB_DEFAULT_QOS.Priority" then (1 : Nat) else 0) ≠
      (fun s => if s = "CFE_SB_DEFAULT_QOS.Priority" then (1 : Nat) else 0)
        "CFE_SB_DEFAULT_QOS_PRIORITY" := by
  exact ⟨by decide, by decide, by decide, by decide⟩

/-- C3 amended: every `S`-generated global is a `const CFE_Status_t` named
`S_IDENT` holding exactly the value of `IDENT`; every `X`-generated global
is a `const` of its per-constant declared type named `X_IDENT` holding
exactly the value of `IDENT`; the two remaining `X_`-named globals (the
QOS pair, which the claim's reading as `X_IDENT = IDENT` breaks on) are
`const uint8` holding exactly the values of the `Priority` and
`Reliability` fields of `CFE_SB_DEFAULT_QOS`; and the workaround global of
`src/cfs-sys/cfs-shims.c` has type `CFE_ES_StackPointer_t` and holds
exactly the value of `CFE_ES_TASK_STACK_ALLOCATE`. -/
theorem constants_materialized :
    (∀ i ∈ sIdents, (S i).isConst = true ∧ (S i).ctype = CType.CFE_Status_t ∧
      (S i).name = "S_" ++ i ∧
      ∀ (V : Type) (env : String → V), (S i).value env = env i) ∧
    (∀ p ∈ xIdents, (X p.1 p.2).isConst = true ∧ (X p.1 p.2).ctype = p.2 ∧
      (X p.1 p.2).name = "X_" ++ p.1 ∧
      ∀ (V : Type) (env : String → V), (X p.1 p.2).value env = env p.1) ∧
    (∀ (V : Type) (env : String → V),
      qosDecls.map (fun d => d.value env) =
        [env "CFE_SB_DEFAULT_QOS.Priority", env "CFE_SB_DEFAULT_QOS.Reliability"] ∧
      qosDecls.map CGlobalDecl.ctype = [CType.uint8, CType.uint8] ∧
      sysWorkaroundDecl.ctype = CType.CFE_ES_StackPointer_t ∧
      sysWorkaroundDecl.value env = env "CFE_ES_TASK_STACK_ALLOCATE") := by
  refine ⟨?_, ?_, ?_⟩
  · intro i _
    exact ⟨rfl, rfl, rfl, fun V env => rfl⟩
  · intro p _
    exact ⟨rfl, rfl, rfl, fun V env => rfl⟩
  · intro V env
    exact ⟨rfl, rfl, rfl, rfl⟩

/-- Witness for C3 (amended): instantiated at the first `S` identifier
`CFE_SEVERITY_BITMASK`, under the environment sending every identifier to
its length: the global `S_CFE_SEVERITY_BITMASK` is a `const CFE_Status_t`
holding the value of `CFE_SEVERITY_BITMASK`. -/
theorem constants_materialized_witness :
    (S "CFE_SEVERITY_BITMASK").isConst = true ∧
    (S "CFE_SEVERITY_BITMASK").ctype = CType.CFE_Status_t ∧
    (S "CFE_SEVERITY_BITMASK").name = "S_" ++ "CFE_SEVERITY_BITMASK" ∧
    ∀ (V : Type) (env : String → V),
      (S "CFE_SEVERITY_BITMASK").value env = env "CFE_SEVERITY_BITMASK" :=
  constants_materialized.1 "CFE_SEVERITY_BITMASK" (by decide)

/-- C6 as stated is false: the repository contains a constant re-export
that is not an instantiation of `S` or `X` — the bindgen workaround of
`src/cfs-sys/cfs-shims.c` line 27, which is written out directly and,
unlike every `S`/`X` expansion, is not `const`. -/
theorem constant_reexport_not_macro_generated :
    ¬ (∀ d ∈ allConstDecls, (∃ i, d = S i) ∨ (∃ i t, d = X i t)) := by
  intro h
  have hm : sysWorkaroundDecl ∈ allConstDecls :=
    List.mem_append_right _ (List.mem_singleton_self _)
  rcases h _ hm with ⟨i, hi⟩ | ⟨i, t, hi⟩
  · exact Bool.false_ne_true (congrArg CGlobalDecl.isConst hi)
  · exact Bool.false_ne_true (congrArg CGlobalDecl.isConst hi)

/-- C6 amended: every forwarding shim in both files is an instantiation of
the respective file's `shim1` or `shim2` macro template — consequently
every exported shim function takes exactly one or exactly two arguments —
and every constant re-export is an instantiation of `S` or `X` except
three written out directly: the two QOS field globals of
`src/cfs-sys/cfs-api.h` and the non-`const` bindgen workaround of
`src/cfs-sys/cfs-shims.c`. -/
theorem macro_generated_surface :
    (∀ d ∈ CShims.decls,
      (∃ r f a, d = CShims.shim1 r f a) ∨ (∃ r f a b, d = CShims.shim2 r f a b)) ∧
    (∀ d ∈ SysShims.decls,
      (∃ r f a n, d = SysShims.shim1 r f a n) ∨
      (∃ r f a n b m, d = SysShims.shim2 r f a n b m)) ∧
    (∀ d ∈ sDecls, ∃ i, d = S i) ∧
    (∀ d ∈ xDecls, ∃ i t, d = X i t) ∧
    allConstDecls = sDecls ++ xDecls ++ (qosDecls ++ [sysWorkaroundDecl]) ∧
    (∀ d ∈ CShims.decls ++ SysShims.decls,
      d.params.length = 1 ∨ d.params.length = 2) := by
  refine ⟨?_, ?_, ?_, ?_, ?_, by decide⟩
  · intro d hd
    fin_cases hd <;>
      first
      | exact Or.inl ⟨_, _, _, rfl⟩
      | exact Or.inr ⟨_, _, _, _, rfl⟩
  · intro d hd
    fin_cases hd <;>
      first
      | exact Or.inl ⟨_, _, _, _, rfl⟩
      | exact Or.inr ⟨_, _, _, _, _, _, rfl⟩
  · intro d hd
    obtain ⟨i, _, rfl⟩ := List.mem_map.mp hd
    exact ⟨i, rfl⟩
  · intro d hd
    obtain ⟨p, _, rfl⟩ := List.mem_map.mp hd
    exact ⟨p.1, p.2, rfl⟩
  · simp [allConstDecls, cfsApiDecls, List.append_assoc]

/-- Witness for C6 (amended): the first declaration of `src/cfs-shims.c`
is an instantiation of that file's `shim1` or `shim2` template. -/
theorem macro_generated_surface_witness :
    (∃ r f a, CShims.shim1 CType.unsigned_long "CFE_ResourceId_ToInteger"
        CType.CFE_ResourceId_t = CShims.shim1 r f a) ∨
    (∃ r f a b, CShims.shim1 CType.unsigned_long "CFE_ResourceId_ToInteger"
        CType.CFE_ResourceId_t = CShims.shim2 r f a b) :=
  macro_generated_surface.1
    (CShims.shim1 CType.unsigned_long "CFE_ResourceId_ToInteger" CType.CFE_ResourceId_t)
    (by decide)

set_option maxRecDepth 8192 in
set_option maxHeartbeats 4000000 in
/-- C7: the exported surface.  Each shim file defines 26 shim functions
with pairwise distinct `SHIM_`-prefixed names, the same 26 names in both
files, so the repository exports 26 distinct shim functions ("roughly
30"); `src/cfs-sys/cfs-api.h` defines 146 constant globals (137 `S_` plus
9 `X_`) with pairwise distinct names, and the one further constant global
(the workaround) reuses one of those names, so the repository exports 146
distinct `S_`/`X_`-prefixed constants ("roughly 140"). -/
theorem exported_surface_counts :
    CShims.decls.length = 26 ∧
    SysShims.decls.length = 26 ∧
    (CShims.decls.map CFunDef.name).Nodup ∧
    CShims.decls.map CFunDef.name = SysShims.decls.map CFunDef.name ∧
    sDecls.length = 137 ∧
    xDecls.length = 7 ∧
    qosDecls.length = 2 ∧
    cfsApiDecls.length = 146 ∧
    (cfsApiDecls.map CGlobalDecl.name).Nodup ∧
    sysWorkaroundDecl.name ∈ cfsApiDecls.map CGlobalDecl.name ∧
    allConstDecls.length = 147 := by
  exact ⟨rfl, rfl, by decide, by decide, by decide, rfl, rfl, by decide,
    by decide, by decide, by decide⟩

/-- C8: the two shim implementations `src/cfs-shims.c` and
`src/cfs-sys/cfs-shims.c` export the same 26 shim functions: identical
names, identical signatures, and — for every middleware oracle and every
argument list — identical results. -/
theorem shim_files_equivalent :
    CShims.decls.length = 26 ∧
    SysShims.decls.length = 26 ∧
    CShims.decls.map CFunDef.name = SysShims.decls.map CFunDef.name ∧
    CShims.decls.map CFunDef.exportSig = SysShims.decls.map CFunDef.exportSig ∧
    ∀ p ∈ CShims.decls.zip SysShims.decls,
      ∀ (V : Type) [Inhabited V] (mid : String → List V → V) (args : List V),
        p.1.run mid args = p.2.run mid args := by
  refine ⟨rfl, rfl, by decide, by decide, ?_⟩
  intro p hp V _ mid args
  exact CFunDef.run_congr (zipped_shims_same_call p hp).1
    (zipped_shims_same_call p hp).2 mid args

/-- Witness for C8: the two `OS_TimeSubtract` shims, run on the argument
list `[9, 4]` against a subtracting middleware oracle, both return `5`. -/
theorem shim_files_equivalent_witness :
    (CShims.shim2 CType.OS_time_t "OS_TimeSubtract" CType.OS_time_t
        CType.OS_time_t).run
      (fun _ args => args.getD 0 (0 : Int) - args.getD 1 0) [9, 4] =
    (SysShims.shim2 CType.OS_time_t "OS_TimeSubtract" CType.OS_time_t "time1"
        CType.OS_time_t "time2").run
      (fun _ args => args.getD 0 (0 : Int) - args.getD 1 0) [9, 4] :=
  shim_files_equivalent.2.2.2.2
    (CShims.shim2 CType.OS_time_t "OS_TimeSubtract" CType.OS_time_t CType.OS_time_t,
     SysShims.shim2 CType.OS_time_t "OS_TimeSubtract" CType.OS_time_t "time1"
        CType.OS_time_t "time2")
    (by decide) Int (fun _ args => args.getD 0 (0 : Int) - args.getD 1 0) [9, 4]

/-- C9: every shim function is deterministic and its result depends on
nothing but the wrapped function it forwards to and the argument values:
for any two middlewares agreeing on the wrapped function and any equal
argument values, the two shim calls return equal results. -/
theorem shim_deterministic :
    ∀ (M M' : Middleware),
      (M.CFE_ResourceId_ToInteger = M'.CFE_ResourceId_ToInteger →
        ∀ a a', a = a' →
          SHIM_CFE_ResourceId_ToInteger M a = SHIM_CFE_ResourceId_ToInteger M' a') ∧
      (M.CFE_ResourceId_FromInteger = M'.CFE_ResourceId_FromInteger →
        ∀ a a', a = a' →
          SHIM_CFE_ResourceId_FromInteger M a = SHIM_CFE_ResourceId_FromInteger M' a') ∧
      (M.CFE_ResourceId_Equal = M'.CFE_ResourceId_Equal →
        ∀ a a' b b', a = a' → b = b' →
          SHIM_CFE_ResourceId_Equal M a b = SHIM_CFE_ResourceId_Equal M' a' b') ∧
      (M.CFE_ResourceId_IsDefined = M'.CFE_ResourceId_IsDefined →
        ∀ a a', a = a' →
          SHIM_CFE_ResourceId_IsDefined M a = SHIM_CFE_ResourceId_IsDefined M' a') ∧
      (M.CFE_SB_MsgId_Equal = M'.CFE_SB_MsgId_Equal →
        ∀ a a' b b', a = a' → b = b' →
          SHIM_CFE_SB_MsgId_Equal M a b = SHIM_CFE_SB_MsgId_Equal M' a' b') ∧
      (M.CFE_SB_MsgIdToValue = M'.CFE_SB_MsgIdToValue →
        ∀ a a', a = a' →
          SHIM_CFE_SB_MsgIdToValue M a = SHIM_CFE_SB_MsgIdToValue M' a') ∧
      (M.CFE_SB_ValueToMsgId = M'.CFE_SB_ValueToMsgId →
        ∀ a a', a = a' →
          SHIM_CFE_SB_ValueToMsgId M a = SHIM_CFE_SB_ValueToMsgId M' a') ∧
      (M.OS_TimeGetTotalSeconds = M'.OS_TimeGetTotalSeconds →
        ∀ a a', a = a' →
          SHIM_OS_TimeGetTotalSeconds M a = SHIM_OS_TimeGetTotalSeconds M' a') ∧
      (M.OS_TimeGetTotalMilliseconds = M'.OS_TimeGetTotalMilliseconds →
        ∀ a a', a = a' →
          SHIM_OS_TimeGetTotalMilliseconds M a = SHIM_OS_TimeGetTotalMilliseconds M' a') ∧
      (M.OS_TimeGetTotalMicroseconds = M'.OS_TimeGetTotalMicroseconds →
        ∀ a a', a = a' →
          SHIM_OS_TimeGetTotalMicroseconds M a = SHIM_OS_TimeGetTotalMicroseconds M' a') ∧
      (M.OS_TimeGetTotalNanoseconds = M'.OS_TimeGetTotalNanoseconds →
        ∀ a a', a = a' →
          SHIM_OS_TimeGetTotalNanoseconds M a = SHIM_OS_TimeGetTotalNanoseconds M' a') ∧
      (M.OS_TimeGetFractionalPart = M'.OS_TimeGetFractionalPart →
        ∀ a a', a = a' →
          SHIM_OS_TimeGetFractionalPart M a = SHIM_OS_TimeGetFractionalPart M' a') ∧
      (M.OS_TimeGetSubsecondsPart = M'.OS_TimeGetSubsecondsPart →
        ∀ a a', a = a' →
          SHIM_OS_TimeGetSubsecondsPart M a = SHIM_OS_TimeGetSubsecondsPart M' a') ∧
      (M.OS_TimeGetMillisecondsPart = M'.OS_TimeGetMillisecondsPart →
        ∀ a a', a = a' →
          SHIM_OS_TimeGetMillisecondsPart M a = SHIM_OS_TimeGetMillisecondsPart M' a') ∧
      (M.OS_TimeGetMicrosecondsPart = M'.OS_TimeGetMicrosecondsPart →
        ∀ a a', a = a' →
          SHIM_OS_TimeGetMicrosecondsPart M a = SHIM_OS_TimeGetMicrosecondsPart M' a') ∧
      (M.OS_TimeGetNanosecondsPart = M'.OS_TimeGetNanosecondsPart →
        ∀ a a', a = a' →
          SHIM_OS_TimeGetNanosecondsPart M a = SHIM_OS_TimeGetNanosecondsPart M' a') ∧
      (M.OS_TimeAssembleFromNanoseconds = M'.OS_TimeAssembleFromNanoseconds →
        ∀ a a' b b', a = a' → b = b' →
          SHIM_OS_TimeAssembleFromNanoseconds M a b = SHIM_OS_TimeAssembleFromNanoseconds M' a' b') ∧
      (M.OS_TimeAssembleFromMicroseconds = M'.OS_TimeAssembleFromMicroseconds →
        ∀ a a' b b', a = a' → b = b' →
          SHIM_OS_TimeAssembleFromMicroseconds M a b = SHIM_OS_TimeAssembleFromMicroseconds M' a' b') ∧
      (M.OS_TimeAssembleFromMilliseconds = M'.OS_TimeAssembleFromMilliseconds →
        ∀ a a' b b', a = a' → b = b' →
          SHIM_OS_TimeAssembleFromMilliseconds M a b = SHIM_OS_TimeAssembleFromMilliseconds M' a' b') ∧
      (M.OS_TimeAssembleFromSubseconds = M'.OS_TimeAssembleFromSubseconds →
        ∀ a a' b b', a = a' → b = b' →
          SHIM_OS_TimeAssembleFromSubseconds M a b = SHIM_OS_TimeAssembleFromSubseconds M' a' b') ∧
      (M.OS_TimeAdd = M'.OS_TimeAdd →
        ∀ a a' b b', a = a' → b = b' →
          SHIM_OS_TimeAdd M a b = SHIM_OS_TimeAdd M' a' b') ∧
      (M.OS_TimeSubtract = M'.OS_TimeSubtract →
        ∀ a a' b b', a = a' → b = b' →
          SHIM_OS_TimeSubtract M a b = SHIM_OS_TimeSubtract M' a' b') ∧
      (M.OS_ObjectIdToInteger = M'.OS_ObjectIdToInteger →
        ∀ a a', a = a' →
          SHIM_OS_ObjectIdToInteger M a = SHIM_OS_ObjectIdToInteger M' a') ∧
      (M.OS_ObjectIdFromInteger = M'.OS_ObjectIdFromInteger →
        ∀ a a', a = a' →
          SHIM_OS_ObjectIdFromInteger M a = SHIM_OS_ObjectIdFromInteger M' a') ∧
      (M.OS_ObjectIdEqual = M'.OS_ObjectIdEqual →
        ∀ a a' b b', a = a' → b = b' →
          SHIM_OS_ObjectIdEqual M a b = SHIM_OS_ObjectIdEqual M' a' b') ∧
      (M.OS_ObjectIdDefined = M'.OS_ObjectIdDefined →
        ∀ a a', a = a' →
          SHIM_OS_ObjectIdDefined M a = SHIM_OS_ObjectIdDefined M' a') := by
  intro M M'
  exact ⟨fun hf _ _ hx => shim1_congr hf hx,
    fun hf _ _ hx => shim1_congr hf hx,
    fun hf _ _ _ _ hx hu => shim2_congr hf hx hu,
    fun hf _ _ hx => shim1_congr hf hx,
    fun hf _ _ _ _ hx hu => shim2_congr hf hx hu,
    fun hf _ _ hx => shim1_congr hf hx,
    fun hf _ _ hx => shim1_congr hf hx,
    fun hf _ _ hx => shim1_congr hf hx,
    fun hf _ _ hx => shim1_congr hf hx,
    fun hf _ _ hx => shim1_congr hf hx,
    fun hf _ _ hx => shim1_congr hf hx,
    fun hf _ _ hx => shim1_congr hf hx,
    fun hf _ _ hx => shim1_congr hf hx,
    fun hf _ _ hx => shim1_congr hf hx,
    fun hf _ _ hx => shim1_congr hf hx,
    fun hf _ _ hx => shim1_congr hf hx,
    fun hf _ _ _ _ hx hu => shim2_congr hf hx hu,
    fun hf _ _ _ _ hx hu => shim2_congr hf hx hu,
    fun hf _ _ _ _ hx hu => shim2_congr hf hx hu,
    fun hf _ _ _ _ hx hu => shim2_congr hf hx hu,
    fun hf _ _ _ _ hx hu => shim2_congr hf hx hu,
    fun hf _ _ _ _ hx hu => shim2_congr hf hx hu,
    fun hf _ _ hx => shim1_congr hf hx,
    fun hf _ _ hx => shim1_congr hf hx,
    fun hf _ _ _ _ hx hu => shim2_congr hf hx hu,
    fun hf _ _ hx => shim1_congr hf hx⟩

/-- Witness for C9: `SHIM_CFE_ResourceId_ToInteger` returns the same value
on the resource ID `3` under `sampleMiddleware` and under
`sampleMiddlewareB` (which agrees with it on `CFE_ResourceId_ToInteger`
but differs on `CFE_ResourceId_IsDefined`); that common value is `3`. -/
theorem shim_deterministic_witness :
    SHIM_CFE_ResourceId_ToInteger sampleMiddleware ⟨3⟩ =
      SHIM_CFE_ResourceId_ToInteger sampleMiddlewareB ⟨3⟩ ∧
    SHIM_CFE_ResourceId_ToInteger sampleMiddleware ⟨3⟩ = 3 :=
  ⟨(shim_deterministic sampleMiddleware sampleMiddlewareB).1 rfl ⟨3⟩ ⟨3⟩ rfl, rfl⟩

/-- C10: the pointer constant `CFE_ES_TASK_STACK_ALLOCATE` is materialized
twice — once by the `X` macro in `src/cfs-sys/cfs-api.h` line 184 and once
directly in `src/cfs-sys/cfs-shims.c` line 27 as a bindgen workaround —
and both resulting globals are named `X_CFE_ES_TASK_STACK_ALLOCATE`, have
type `CFE_ES_StackPointer_t`, and hold exactly the value of
`CFE_ES_TASK_STACK_ALLOCATE`. -/
theorem stack_allocate_materialized_twice :
    X "CFE_ES_TASK_STACK_ALLOCATE" CType.CFE_ES_StackPointer_t ∈ cfsApiDecls ∧
    sysWorkaroundDecl ∈ allConstDecls ∧
    sysWorkaroundDecl ≠ X "CFE_ES_TASK_STACK_ALLOCATE" CType.CFE_ES_StackPointer_t ∧
    (X "CFE_ES_TASK_STACK_ALLOCATE" CType.CFE_ES_StackPointer_t).name =
      "X_CFE_ES_TASK_STACK_ALLOCATE" ∧
    sysWorkaroundDecl.name = "X_CFE_ES_TASK_STACK_ALLOCATE" ∧
    (X "CFE_ES_TASK_STACK_ALLOCATE" CType.CFE_ES_StackPointer_t).ctype =
      CType.CFE_ES_StackPointer_t ∧
    sysWorkaroundDecl.ctype = CType.CFE_ES_StackPointer_t ∧
    ∀ (V : Type) (env : String → V),
      (X "CFE_ES_TASK_STACK_ALLOCATE" CType.CFE_ES_StackPointer_t).value env =
        env "CFE_ES_TASK_STACK_ALLOCATE" ∧
      sysWorkaroundDecl.value env = env "CFE_ES_TASK_STACK_ALLOCATE" := by
  exact ⟨by decide, by decide, by decide, rfl, rfl, rfl, rfl,
    fun V env => ⟨rfl, rfl⟩⟩
